import Mathlib

/-!
Verification of the AutoMV_UI pipeline-orchestration and source-patching layer
(`app.py` and `patch_byteplus.py`) via a shallow embedding in Lean.

Paths are modelled as plain strings (as in the source, `os.path.join a b` is
embedded as `a ++ "/" ++ b`), the file system as an association list from path
to content plus a list of directories, and the two child processes as opaque
collaborators described by a `World` record (their output lines, exit codes,
and whether the final video artifact appears).  Python string operations
(`re.sub`, `str.replace(old, new, 1)`, `in`, `strip`, `lower`,
`os.path.splitext`) are embedded as executable functions on `List Char`.
-/

namespace AutoMV

/-- Characters Python treats as whitespace in ASCII (`str.strip`, `\s`). -/
def isSpaceChar (c : Char) : Bool :=
  c = ' ' || c = '\t' || c = '\n' || c = '\r' || c = '\x0b' || c = '\x0c'

/-- Python `str.strip()` restricted to ASCII whitespace. -/
def pyStrip (s : String) : String :=
  String.mk (((s.data.dropWhile isSpaceChar).reverse.dropWhile isSpaceChar).reverse)

/-- ASCII lower-casing of one character, as Python `str.lower` acts on ASCII. -/
def lowerChar (c : Char) : Char :=
  if 'A' ≤ c ∧ c ≤ 'Z' then Char.ofNat (c.toNat + 32) else c

/-- ASCII lower-casing of a string. -/
def asciiLower (s : String) : String := String.mk (s.data.map lowerChar)

/-- Python truthiness-driven `or` on strings: `name or "untitled"`. -/
def pyOr (s d : String) : String := if s = "" then d else s

/-- The character class `[a-zA-Z0-9_]` of `app.py`'s sanitizer regex. -/
def isWordChar (c : Char) : Bool :=
  ('a' ≤ c && c ≤ 'z') || ('A' ≤ c && c ≤ 'Z') || ('0' ≤ c && c ≤ '9') || c = '_'

/-- The per-character action of the sanitizer regex: characters outside the
class are replaced by an underscore. -/
def sanitizeChar (c : Char) : Char := if isWordChar c then c else '_'

/-- `app.py` line 87: `re.sub(r"[^a-zA-Z0-9_]", "_", name)` — every character
outside the class is replaced by an underscore. -/
def sanitize_music_name (name : String) : String :=
  String.mk (name.data.map sanitizeChar)

/-- Python substring test `nee in hay`. -/
def strContains (hay nee : String) : Bool :=
  hay.data.tails.any (fun t => nee.data.isPrefixOf t)

/-- Python `s.replace(old, new, 1)` on character lists: replace the first
occurrence of `old` by `new` (an empty `old` matches at position 0). -/
def replaceOnceL (old new : List Char) : List Char → List Char
  | [] => if old = [] then new else []
  | c :: cs =>
    if old.isPrefixOf (c :: cs) then new ++ (c :: cs).drop old.length
    else c :: replaceOnceL old new cs

/-- Python `s.replace(old, new, 1)` on strings. -/
def pyReplaceOnce (s old new : String) : String :=
  String.mk (replaceOnceL old.data new.data s.data)

/-- `l[:60]` of Python, used by the patcher's warning message. -/
def pyTake (n : Nat) (s : String) : String := String.mk (s.data.take n)

/-- `sep.join(xs)` of Python. -/
def joinWith (sep : String) : List String → String
  | [] => ""
  | [x] => x
  | x :: y :: xs => x ++ sep ++ joinWith sep (y :: xs)

/-- Drop a literal prefix from a character list, if present. -/
def stripPrefixL (pre cs : List Char) : Option (List Char) :=
  if pre.isPrefixOf cs then some (cs.drop pre.length) else none

/-- Generic engine for Python `re.sub(pattern, repl, s)` with a literal-ish
pattern: `m` tries to match the pattern at the head of the list and returns
the rest after the match.  All non-overlapping occurrences are replaced,
scanning left to right; the fuel (initially the string length) bounds the
recursion and is never exhausted because every match consumes at least one
character. -/
def subAllAux (m : List Char → Option (List Char)) (repl : List Char) :
    Nat → List Char → List Char
  | 0, cs => cs
  | _ + 1, [] => []
  | fuel + 1, c :: cs =>
    match m (c :: cs) with
    | some rest => repl ++ subAllAux m repl fuel rest
    | none => c :: subAllAux m repl fuel cs

/-- Generic `re.sub` over strings. -/
def subAll (m : List Char → Option (List Char)) (repl : String) (s : String) : String :=
  String.mk (subAllAux m repl.data s.data.length s.data)

/-- Matcher for the pattern `music_name\s*=\s*"[^"]*"` of `app.py` line 151. -/
def matchMusicPat (cs : List Char) : Option (List Char) :=
  match stripPrefixL "music_name".data cs with
  | none => none
  | some cs1 =>
    match cs1.dropWhile isSpaceChar with
    | '=' :: cs2 =>
      match cs2.dropWhile isSpaceChar with
      | '"' :: cs3 =>
        match cs3.dropWhile (fun c => c ≠ '"') with
        | '"' :: rest => some rest
        | _ => none
      | _ => none
    | _ => none

/-- `app.py` lines 150–154: substitute the `music_name = "..."` assignment in
the external `config.py` by `music_name = "<name>"`. -/
def subMusicName (content name : String) : String :=
  subAll matchMusicPat ("music_name = \"" ++ name ++ "\"") content

/-- `os.path.splitext(p)[1]`: the extension of the basename of `p`, empty when
the basename has no dot or consists only of leading dots before its last dot. -/
def splitextExt (p : String) : String :=
  let base := ((p.data.reverse.takeWhile (fun c => c ≠ '/')).reverse)
  let afterDotRev := base.reverse.takeWhile (fun c => c ≠ '.')
  if afterDotRev.length = base.length then ""
  else
    let d := base.length - afterDotRev.length - 1
    if (base.take d).any (fun c => c ≠ '.') then String.mk (base.drop d) else ""

/-! ## File-system model -/

/-- The on-disk state visible to the tools: file contents keyed by path (the
most recent write is kept at the head), plus the set of directories. -/
structure FS where
  files : List (String × String)
  dirs : List String
deriving DecidableEq

/-- Read a file (Python `open(p, "r").read()` succeeds iff this is `some`). -/
def FS.read (fs : FS) (p : String) : Option String :=
  (fs.files.find? (fun kv => kv.1 = p)).map (fun kv => kv.2)

/-- Write (or overwrite) a file, as `open(p, "w").write(c)`. -/
def FS.write (fs : FS) (p c : String) : FS :=
  { fs with files := (p, c) :: fs.files }

/-- `os.remove p`. -/
def FS.remove (fs : FS) (p : String) : FS :=
  { fs with files := fs.files.filter (fun kv => kv.1 ≠ p) }

/-- `os.makedirs(p, exist_ok=True)`. -/
def FS.mkdir (fs : FS) (p : String) : FS :=
  { fs with dirs := p :: fs.dirs }

/-- `os.path.exists p` (true for files and directories). -/
def FS.existsP (fs : FS) (p : String) : Bool :=
  fs.dirs.contains p || (fs.read p).isSome

/-! ## Settings store (`app.py` lines 16–84) -/

/-- A parsed `.env` file: ordered key/value pairs (`dotenv_values`). -/
abbrev EnvMap := List (String × String)

/-- Dictionary lookup `env.get(k)`. -/
def lookupEnv (env : EnvMap) (k : String) : Option String :=
  (env.find? (fun kv => kv.1 = k)).map (fun kv => kv.2)

/-- Python truthiness of `env.get(k)`: present with a non-empty value. -/
def envTruthy (env : EnvMap) (k : String) : Bool :=
  match lookupEnv env k with
  | some v => v ≠ ""
  | none => false

/-- `env.get("ARK_PROVIDER", "byteplus")`. -/
def providerOf (env : EnvMap) : String :=
  match lookupEnv env "ARK_PROVIDER" with
  | some v => v
  | none => "byteplus"

/-- `API_KEYS` of `app.py` (key, label). -/
def API_KEYS : List (String × String) :=
  [("GEMINI_API_KEY", "Gemini API Key (Google)"),
   ("DOUBAO_API_KEY", "Ark API Key (BytePlus or Volcengine)"),
   ("ALIYUN_OSS_ACCESS_KEY_ID", "Aliyun OSS Access Key ID"),
   ("ALIYUN_OSS_ACCESS_KEY_SECRET", "Aliyun OSS Access Key Secret"),
   ("ALIYUN_OSS_BUCKET_NAME", "Aliyun OSS Bucket Name"),
   ("HUOSHAN_ACCESS_KEY", "Huoshan Access Key (China only, for lip-sync)"),
   ("HUOSHAN_SECRET_KEY", "Huoshan Secret Key (China only, for lip-sync)")]

/-- `MODEL_SETTINGS` of `app.py` (key, label, default). -/
def MODEL_SETTINGS : List (String × String × String) :=
  [("GPU_ID", "GPU Device ID", "0"),
   ("WHISPER_MODEL", "Whisper Model", "openai/whisper-large-v2"),
   ("QWEN_OMNI_MODEL", "Qwen Omni Model", "Qwen/Qwen2.5-Omni-7B"),
   ("MODEL_SEEDREAM", "Seedream Model ID", "seedream-4-0-250828"),
   ("MODEL_SEEDANCE", "Seedance Model ID", "seedance-1-0-pro-250528"),
   ("MODEL_SEED_LLM", "Seed LLM Model ID", "seed-1.6-250615")]

/-- The concatenated key list `all_keys` of `save_env_settings`. -/
def allSettingsKeys : List String :=
  API_KEYS.map (fun kl => kl.1) ++ MODEL_SETTINGS.map (fun kld => kld.1)

/-- `set_key(ENV_PATH, k, v)`: update the key's entry in place, or append. -/
def setKeyL (env : EnvMap) (k v : String) : EnvMap :=
  if env.any (fun kv => kv.1 = k) then
    env.map (fun kv => if kv.1 = k then (k, v) else kv)
  else env ++ [(k, v)]

/-- `save_env_settings(provider, *values)` of `app.py` lines 44–71, acting on
the parsed `.env` file (`none` when the file does not exist yet; the function
then creates it empty).  Returns the updated file and the status string. -/
def save_env_settings (provider : String) (values : List String)
    (envFile : Option EnvMap) : EnvMap × String :=
  let env0 : EnvMap := match envFile with | none => [] | some e => e
  let env1 := setKeyL env0 "ARK_PROVIDER"
      (if provider ≠ "" then pyStrip provider else "byteplus")
  let env2 := (allSettingsKeys.zip values).foldl
    (fun e kv => if pyStrip kv.2 ≠ "" then setKeyL e kv.1 (pyStrip kv.2) else e) env1
  let configured := (API_KEYS.filter (fun kl => envTruthy env2 kl.1)).length
  let missing := (API_KEYS.filter (fun kl => ¬ envTruthy env2 kl.1)).map (fun kl => kl.2)
  let prov := providerOf env2
  let status :=
    "Provider: " ++ prov ++ "\n" ++
    "Configured: " ++ toString configured ++ "/" ++ toString API_KEYS.length ++ " API keys" ++
    (if missing ≠ [] then "\nMissing: " ++ joinWith ", " missing
     else "\nAll API keys are set.") ++
    (if prov = "byteplus" then
      "\n\nNote: Lip-sync (Jimeng) requires Volcengine (China). Set to \x27None\x27 if using BytePlus."
     else "")
  (env2, status)

/-! ## Dynamic script synthesizer (`app.py` lines 236–250) -/

/-- `_build_gen_script(music_name, lip_sync, resolution)`: the synthesized
stage-2 driver source. -/
def _build_gen_script (musicName lipSync resolution : String) : String :=
  let lines := ["from video_generate.video_generate_pipeline import full_video_gen",
                "from config import Config"]
  let lines :=
    if lipSync = "Jimeng (fast)" then
      lines ++ ["from generate_lip_video.gen_lip_sycn_video_jimeng import gen_lip_sync_video_jimeng",
                "gen_lip_sync_video_jimeng(\"" ++ musicName ++ "\", config=Config)"]
    else if lipSync = "Wan2.2 (slow, cheap)" then
      lines ++ ["from generate_lip_video.gen_lip_sycn_video import gen_lip_sync_video",
                "gen_lip_sync_video(\"" ++ musicName ++ "\")"]
    else lines
  let res := if resolution = "480p" then "480p" else "720p"
  let lines := lines ++
    ["full_video_gen(\"" ++ musicName ++ "\", resolution=\"" ++ res ++ "\", config=Config)"]
  joinWith "\n" lines ++ "\n"

/-! ## Pipeline orchestrator (`app.py` lines 101–233)

The two child processes are opaque: a `World` record supplies their streamed
output lines and exit codes, the uploaded audio bytes, whether the final video
artifact exists after stage 2, and an optional exception injected at one of
the interruption points inside the `try` block (modelling `body` raising). -/

/-- Side effects performed by a run, in order. -/
inductive Event where
  | mkdirE (p : String)
  | copyE (src dst : String)
  | writeE (p c : String)
  | removeE (p : String)
  | spawnE (stage : Nat)
deriving DecidableEq

/-- Points inside the `try` block at which an injected exception may fire. -/
inductive ExnPoint where
  | duringStage1
  | beforeScriptWrite
  | duringStage2
  | atCleanup
deriving DecidableEq

/-- The opaque environment of one run. -/
structure World where
  stage1Lines : List String
  stage1Exit : Int
  stage2Lines : List String
  stage2Exit : Int
  finalVideoExists : Bool
  audioContent : String
  exn : Option ExnPoint
deriving DecidableEq

/-- Result of one generator invocation: the values yielded (in order), the
final file system, the side effects performed, and whether an exception
propagated out of the generator. -/
structure RunOut where
  yields : List String
  fs : FS
  events : List Event
  raised : Bool
deriving DecidableEq

/-- `for line in proc.stdout: log += line; yield log` — stream the child's
lines, appending each to the log and yielding the grown log. -/
def streamLines (log : String) (ys : List String) : List String → String × List String
  | [] => (log, ys)
  | l :: rest => streamLines (log ++ l) (ys ++ [log ++ l]) rest

/-- The body of the `try` block of `generate_music_video` (`app.py` lines
158–228): stage 1, the stage-2 driver synthesis, stage 2, cleanup and final
report.  Yields and events are relative to the entry of the block. -/
def tryBody (automvDir musicName lipSync resolution projectDir : String)
    (w : World) (log0 : String) (fs : FS) : RunOut :=
  let log1 := log0 ++ "--- Stage 1: Picture Generation ---\n" ++
    "Running SongFormer analysis + image generation...\n"
  let ys1 := [log1]
  let evs1 := [Event.spawnE 1]
  if w.exn = some ExnPoint.duringStage1 then ⟨ys1, fs, evs1, true⟩
  else
  let s1 := streamLines log1 ys1 w.stage1Lines
  if w.stage1Exit ≠ 0 then
    let log3 := s1.1 ++ "\nStage 1 failed with exit code " ++ toString w.stage1Exit ++ "\n"
    ⟨s1.2 ++ [log3], fs, evs1, false⟩
  else
  let log3 := s1.1 ++ "\nStage 1 complete.\n\n"
  let ys3 := s1.2 ++ [log3]
  let log4 := log3 ++ "--- Stage 2: Video Generation ---\n"
  if w.exn = some ExnPoint.beforeScriptWrite then ⟨ys3, fs, evs1, true⟩
  else
  let genScript := _build_gen_script musicName lipSync resolution
  let genScriptPath := automvDir ++ "/_ui_generate.py"
  let fs2 := fs.write genScriptPath genScript
  let evs2 := evs1 ++ [Event.writeE genScriptPath genScript]
  let log5 := log4 ++ "Generating video clips and assembling final MV...\n"
  let ys4 := ys3 ++ [log5]
  let evs3 := evs2 ++ [Event.spawnE 2]
  if w.exn = some ExnPoint.duringStage2 then ⟨ys4, fs2, evs3, true⟩
  else
  let s2 := streamLines log5 ys4 w.stage2Lines
  if w.stage2Exit ≠ 0 then
    let log7 := s2.1 ++ "\nStage 2 failed with exit code " ++ toString w.stage2Exit ++ "\n"
    ⟨s2.2 ++ [log7], fs2, evs3, false⟩
  else
  if w.exn = some ExnPoint.atCleanup then ⟨s2.2, fs2, evs3, true⟩
  else
  let cleanup :=
    if (fs2.read genScriptPath).isSome then
      (fs2.remove genScriptPath, evs3 ++ [Event.removeE genScriptPath])
    else (fs2, evs3)
  let finalVideo := projectDir ++ "/mv_" ++ musicName ++ ".mp4"
  let log7 :=
    if w.finalVideoExists then s2.1 ++ "\nDone! Final video: " ++ finalVideo ++ "\n"
    else s2.1 ++ "\nPipeline finished but final video not found. Check logs above.\n"
  ⟨s2.2 ++ [log7], cleanup.1, cleanup.2, false⟩

/-- The validation-error line for a missing upload. -/
def errUpload : String := "Error: Please upload a music file."

/-- The validation-error line for an empty sanitized name. -/
def errValidName : String :=
  "Error: Please provide a valid music name (letters, numbers, underscores)."

/-- The validation-error line for an unsupported audio extension. -/
def errExt : String := "Error: Only .mp3 and .wav files are supported."

/-- The warning yielded when lip-sync is requested under the BytePlus provider. -/
def warnLipSync : String :=
  "Warning: Lip-sync (Jimeng) requires Volcengine (China) credentials.\nSwitching lip-sync to \x27None\x27 for BytePlus provider.\n\n"

/-- `generate_music_video(audio_file, music_name, lip_sync, resolution)` of
`app.py` lines 101–233.  `automvDir` stands for the runtime constant
`AUTOMV_DIR`; `env` is the parsed `.env`; `fs0` the initial file system. -/
def generate_music_video (automvDir : String) (audioFile : Option String)
    (musicName lipSync resolution : String) (env : EnvMap) (w : World)
    (fs0 : FS) : RunOut :=
  let af := audioFile.getD ""
  if af = "" then ⟨[errUpload], fs0, [], false⟩
  else
  let name := sanitize_music_name (pyOr musicName "untitled")
  if name = "" then ⟨[errValidName], fs0, [], false⟩
  else
  let missing := ((API_KEYS.take 2).filter (fun kl => ¬ envTruthy env kl.1)).map
    (fun kl => kl.2)
  if missing ≠ [] then
    ⟨["Error: Required API keys not configured: " ++ joinWith ", " missing ++
        "\nPlease go to the Settings tab."], fs0, [], false⟩
  else
  let provider := providerOf env
  let warnYs := if provider = "byteplus" ∧ lipSync ≠ "None" then [warnLipSync] else []
  let lipSync1 := if provider = "byteplus" ∧ lipSync ≠ "None" then "None" else lipSync
  let projectDir := automvDir ++ "/result/" ++ name
  let fs1 := fs0.mkdir projectDir
  let ext := asciiLower (splitextExt af)
  if ¬ (ext = ".mp3" ∨ ext = ".wav") then
    ⟨warnYs ++ [errExt], fs1, [Event.mkdirE projectDir], false⟩
  else
  let destAudio := projectDir ++ "/" ++ name ++ ".mp3"
  let fs2 := fs1.write destAudio w.audioContent
  let evs2 := [Event.mkdirE projectDir, Event.copyE af destAudio]
  let log0 := "=== AutoMV Pipeline ===\n" ++
    ("Provider: " ++ provider ++ "\n") ++
    ("Music: " ++ name ++ "\n") ++
    ("Lip-sync: " ++ lipSync1 ++ "\n") ++
    ("Resolution: " ++ resolution ++ "\n") ++
    ("Audio copied to: " ++ destAudio ++ "\n\n")
  let ys0 := warnYs ++ [log0]
  let configPath := automvDir ++ "/config.py"
  match fs2.read configPath with
  | none => ⟨ys0, fs2, evs2, true⟩
  | some originalConfig =>
    let patched := subMusicName originalConfig name
    let fs3 := fs2.write configPath patched
    let evs3 := evs2 ++ [Event.writeE configPath patched]
    let body := tryBody automvDir name lipSync1 resolution projectDir w log0 fs3
    ⟨ys0 ++ body.yields, body.fs.write configPath originalConfig,
      evs3 ++ body.events ++ [Event.writeE configPath originalConfig], body.raised⟩

/-! ## Idempotent source patcher (`patch_byteplus.py`) -/

/-- `patch_file(filepath, replacements, marker)` of `patch_byteplus.py` lines
20–49: apply the literal replacements (first occurrence each) unless the
marker is already present; report and return as the source does.  The result
is (printed messages, file system, returned boolean). -/
def patch_file (repoDir filepath : String) (replacements : List (String × String))
    (marker : String) (fs : FS) : List String × FS × Bool :=
  let fullPath := repoDir ++ "/" ++ filepath
  match fs.read fullPath with
  | none => (["  [SKIP] " ++ filepath ++ " not found"], fs, false)
  | some content =>
    if marker ≠ "" ∧ strContains content marker then
      (["  [OK] " ++ filepath ++ " already patched"], fs, true)
    else
      let step := replacements.foldl
        (fun (mc : List String × String) onew =>
          if ¬ strContains mc.2 onew.1 then
            (mc.1 ++ ["  [WARN] Pattern not found in " ++ filepath ++ ": " ++
              pyTake 60 onew.1 ++ "..."], mc.2)
          else (mc.1, pyReplaceOnce mc.2 onew.1 onew.2))
        ([], content)
      if step.2 = content then
        (step.1 ++ ["  [OK] " ++ filepath ++ " no changes needed"], fs, true)
      else
        (step.1 ++ ["  [PATCHED] " ++ filepath], fs.write fullPath step.2, true)

/-- The replacement list of `patch_config` (`patch_byteplus.py` lines 65–95). -/
def configReplacements : List (String × String) :=
  [("    music_name = \"1\"",
    "    music_name = \"1\"\n\n    # BytePlus (international) vs Volcengine (China) configuration\n    ARK_PROVIDER = os.getenv(\x27ARK_PROVIDER\x27, \x27byteplus\x27)\n\n    @classmethod\n    def get_ark_base_url(cls):\n        if cls.ARK_PROVIDER == \x27byteplus\x27:\n            return \"https://ark.ap-southeast.bytepluses.com/api/v3\"\n        return \"https://ark.cn-beijing.volces.com/api/v3\"\n\n    @classmethod\n    def get_model_name(cls, model_short):\n        if cls.ARK_PROVIDER == \x27byteplus\x27:\n            return model_short\n        return f\"doubao-{model_short}\"\n\n    MODEL_SEEDREAM = os.getenv(\x27MODEL_SEEDREAM\x27, \x27seedream-4-0-250828\x27)\n    MODEL_SEEDANCE = os.getenv(\x27MODEL_SEEDANCE\x27, \x27seedance-1-0-pro-250528\x27)\n    MODEL_SEED_LLM = os.getenv(\x27MODEL_SEED_LLM\x27, \x27seed-1.6-250615\x27)\n"),
   ("        if not cls.DOUBAO_API_KEY:\n            raise ValueError(\"OPENAI_API_KEY not found in .env\")",
    "        if not cls.DOUBAO_API_KEY:\n            raise ValueError(\"DOUBAO_API_KEY not found in .env\")")]

/-- `patch_config()` of `patch_byteplus.py` lines 52–96.  The function opens
`config.py` with no existence check first, so a missing file raises
`FileNotFoundError` — modelled by `Except.error`. -/
def patch_config (repoDir : String) (fs : FS) :
    Except String (List String × FS × Bool) :=
  let filepath := "config.py"
  let fullPath := repoDir ++ "/" ++ filepath
  match fs.read fullPath with
  | none => Except.error "FileNotFoundError"
  | some content =>
    if strContains content "ARK_PROVIDER" then
      Except.ok (["  [OK] " ++ filepath ++ " already patched"], fs, true)
    else
      Except.ok (patch_file repoDir filepath configReplacements "byteplussdkarkruntime" fs)

/-- The shared SDK-import replacement used by two patch targets. -/
def importReplacement : String × String :=
  ("from volcenginesdkarkruntime import Ark",
   "try:\n    from byteplussdkarkruntime import Ark\nexcept ImportError:\n    from volcenginesdkarkruntime import Ark")

/-- `patch_picture()` of `patch_byteplus.py` lines 99–118. -/
def patch_picture (repoDir : String) (fs : FS) : List String × FS × Bool :=
  patch_file repoDir "picture_generate/picture.py"
    [importReplacement,
     ("client_doubao = Ark(\n    api_key=Config.DOUBAO_API_KEY\n)",
      "client_doubao = Ark(\n    api_key=Config.DOUBAO_API_KEY,\n    base_url=Config.get_ark_base_url(),\n)"),
     ("model=\"doubao-seedream-4-0-250828\",",
      "model=Config.get_model_name(Config.MODEL_SEEDREAM),"),
     ("model=\"doubao-seed-1.6-250615\",",
      "model=Config.get_model_name(Config.MODEL_SEED_LLM),")]
    "byteplussdkarkruntime" fs

/-- `patch_video_pipeline()` of `patch_byteplus.py` lines 121–140. -/
def patch_video_pipeline (repoDir : String) (fs : FS) : List String × FS × Bool :=
  patch_file repoDir "video_generate/video_generate_pipeline.py"
    [importReplacement,
     ("def __init__(self, api_key: str, base_url: str = \"https://ark.cn-beijing.volces.com/api/v3\"):\n        self.client = Ark(base_url=base_url, api_key=api_key)",
      "def __init__(self, api_key: str, base_url: str = None):\n        if base_url is None:\n            base_url = Config.get_ark_base_url()\n        self.client = Ark(base_url=base_url, api_key=api_key)"),
     ("    model = \"doubao-seedance-1-0-pro-250528\"",
      "    model = config.get_model_name(config.MODEL_SEEDANCE)")]
    "byteplussdkarkruntime" fs

/-- `patch_call_gemini()` of `patch_byteplus.py` lines 143–154 (explicit
marker `get_ark_base_url`). -/
def patch_call_gemini (repoDir : String) (fs : FS) : List String × FS × Bool :=
  patch_file repoDir "video_generate/call_gemini.py"
    [("base_url=\"https://ark.cn-beijing.volces.com/api/v3\"",
      "base_url=Config.get_ark_base_url()"),
     ("model=\"doubao-seed-1.6-250615\",",
      "model=Config.get_model_name(Config.MODEL_SEED_LLM),")]
    "get_ark_base_url" fs

/-- Matcher for the regex of `patch_lip_sync` (`patch_byteplus.py` lines
173–175): four spaces, `visual_service.set_ak('…')`, newline, four spaces,
`visual_service.set_sk('…')`, each argument one or more non-quote characters. -/
def matchLipPat (cs : List Char) : Option (List Char) :=
  match stripPrefixL "    visual_service.set_ak(\x27".data cs with
  | none => none
  | some cs1 =>
    let ak := cs1.takeWhile (fun c => c ≠ '\x27')
    if ak = [] then none else
    match stripPrefixL "\x27)\n    visual_service.set_sk(\x27".data (cs1.drop ak.length) with
    | none => none
    | some cs2 =>
      let sk := cs2.takeWhile (fun c => c ≠ '\x27')
      if sk = [] then none else
      stripPrefixL "\x27)".data (cs2.drop sk.length)

/-- The replacement text of `patch_lip_sync`. -/
def lipReplacement : String :=
  "    # Note: Jimeng lip-sync requires Volcengine (China) credentials.\n    # This feature is NOT available via BytePlus (international).\n    visual_service.set_ak(config.HUOSHAN_ACCESS_KEY)\n    visual_service.set_sk(config.HUOSHAN_SECRET_KEY)"

/-- `patch_lip_sync()` of `patch_byteplus.py` lines 157–189. -/
def patch_lip_sync (repoDir : String) (fs : FS) : List String × FS × Bool :=
  let filepath := "generate_lip_video/gen_lip_sycn_video_jimeng.py"
  let fullPath := repoDir ++ "/" ++ filepath
  match fs.read fullPath with
  | none => (["  [SKIP] " ++ filepath ++ " not found"], fs, false)
  | some content =>
    if strContains content "config.HUOSHAN_ACCESS_KEY" then
      (["  [OK] " ++ filepath ++ " already patched"], fs, true)
    else
      let newContent := subAll matchLipPat lipReplacement content
      if newContent = content then
        (["  [WARN] Could not find set_ak/set_sk pattern in " ++ filepath], fs, false)
      else
        (["  [PATCHED] " ++ filepath], fs.write fullPath newContent, true)

/-- `main()` of `patch_byteplus.py` lines 192–203: check the repository
directory, then run the five patch steps in order.  `sys.exit(1)` and the
uncaught `FileNotFoundError` of `patch_config` both surface as `Except.error`. -/
def mainPatch (repoDir : String) (fs : FS) : Except String (List String × FS) :=
  if ¬ fs.existsP repoDir then Except.error "SystemExit"
  else
    match patch_config repoDir fs with
    | Except.error e => Except.error e
    | Except.ok r1 =>
      let r2 := patch_picture repoDir r1.2.1
      let r3 := patch_video_pipeline repoDir r2.2.1
      let r4 := patch_call_gemini repoDir r3.2.1
      let r5 := patch_lip_sync repoDir r4.2.1
      Except.ok (["Applying BytePlus patches to AutoMV repo..."] ++ r1.1 ++ r2.1 ++
        r3.1 ++ r4.1 ++ r5.1 ++ ["Done! BytePlus support patched successfully."], r5.2.1)

/-! ## Project store (`app.py` lines 253–312)

JSON parsing is external to the program; the project directory's parsed
contents are supplied as structured data.  Numeric fields that the source
renders through an f-string (`{…:.1f}` for start/end, `{…}` for number) are
carried as their rendered strings; `none` stands for an absent JSON key, in
which case the source's `dict.get` default applies. -/

/-- One storyboard segment record of `story.json`. -/
structure Seg where
  number : Option String
  start : Option String
  end_ : Option String
  label : Option String
  text : Option String
  story : Option String
deriving DecidableEq

/-- One character record of `label.json`'s `character_depiction`. -/
structure CharInfo where
  name : Option String
  gender : Option String
  age : Option String
  appearance : Option String
  role : Option String
deriving DecidableEq

/-- The parsed `label.json`. -/
structure LabelData where
  style_requirement : String
  character_depiction : List (String × CharInfo)
deriving DecidableEq

/-- The contents of one project directory as `load_project` observes them:
whether the final video exists, the parsed `story.json` and `label.json`
(`none` when the file is absent), and the entries of the `picture` directory
(name paired with `some files` for a subdirectory, `none` for a plain file). -/
structure ProjectData where
  videoExists : Bool
  story : Option (List Seg)
  label : Option LabelData
  pictures : Option (List (String × Option (List String)))
deriving DecidableEq

/-- The view returned by `load_project` (video, storyboard, characters,
keyframes, download). -/
structure ProjectView where
  video : Option String
  storyboard : String
  characters : String
  keyframes : List String
  download : Option String
deriving DecidableEq

/-- The storyboard row for one segment (`app.py` lines 271–276). -/
def fmtSeg (s : Seg) : String :=
  "**#" ++ s.number.getD "?" ++ "** [" ++ s.start.getD "0.0" ++ "s - " ++
  s.end_.getD "0.0" ++ "s] (" ++ s.label.getD "unknown" ++ ")\n" ++
  "Lyrics: " ++ s.text.getD "N/A" ++ "\n" ++
  "Scene: " ++ s.story.getD "N/A" ++ "\n"

/-- The character-sheet row for one depicted character (`app.py` 291–295). -/
def fmtChar (nv : String × CharInfo) : String :=
  "**" ++ nv.2.name.getD nv.1 ++ "** — " ++ nv.2.gender.getD "?" ++ ", " ++
  nv.2.age.getD "?" ++ "\n" ++
  "Appearance: " ++ nv.2.appearance.getD "N/A" ++ "\n" ++
  "Role: " ++ nv.2.role.getD "N/A" ++ "\n"

/-- Insertion step of `sorted` on strings. -/
def insertStr (x : String) : List String → List String
  | [] => [x]
  | y :: ys => if x ≤ y then x :: y :: ys else y :: insertStr x ys

/-- Python `sorted` on strings. -/
def sortStrs : List String → List String
  | [] => []
  | x :: xs => insertStr x (sortStrs xs)

/-- Insertion step of `sorted` on picture-directory entries (by name). -/
def insertEntry (x : String × Option (List String)) :
    List (String × Option (List String)) → List (String × Option (List String))
  | [] => [x]
  | y :: ys => if x.1 ≤ y.1 then x :: y :: ys else y :: insertEntry x ys

/-- Python `sorted(os.listdir(picture_dir))` on entries. -/
def sortEntries : List (String × Option (List String)) →
    List (String × Option (List String))
  | [] => []
  | x :: xs => insertEntry x (sortEntries xs)

/-- `img_file.lower().endswith((".jpg", ".jpeg", ".png"))`. -/
def isImageFile (f : String) : Bool :=
  let l := (asciiLower f).data
  ".jpg".data.isSuffixOf l || ".jpeg".data.isSuffixOf l || ".png".data.isSuffixOf l

/-- `load_project(project_name)` of `app.py` lines 253–312, over the parsed
contents `d` of the project directory.  `resultDir` stands for `RESULT_DIR`. -/
def load_project (resultDir projectName : String) (d : ProjectData) : ProjectView :=
  if projectName = "" then
    ⟨none, "No project selected", "No project selected", [], none⟩
  else
    let projectDir := resultDir ++ "/" ++ projectName
    let videoPath := projectDir ++ "/mv_" ++ projectName ++ ".mp4"
    let video := if d.videoExists then some videoPath else none
    let storyboard :=
      match d.story with
      | none => "No storyboard found."
      | some segs =>
        let rows := segs.map fmtSeg
        if rows ≠ [] then joinWith "\n---\n" rows else "Empty storyboard."
    let characters :=
      match d.label with
      | none => "No character data found."
      | some ld =>
        let charLines :=
          (if ld.style_requirement ≠ "" then
            ["**Style:** " ++ ld.style_requirement ++ "\n"] else []) ++
          ld.character_depiction.map fmtChar
        if charLines ≠ [] then joinWith "\n---\n" charLines else "No characters defined."
    let keyframes :=
      match d.pictures with
      | none => []
      | some entries =>
        (sortEntries entries).flatMap (fun e =>
          match e.2 with
          | none => []
          | some files =>
            ((sortStrs files).filter isImageFile).map
              (fun f => projectDir ++ "/picture/" ++ e.1 ++ "/" ++ f))
    let download := match video with | some _ => some videoPath | none => none
    ⟨video, storyboard, characters, keyframes, download⟩

/-! ## Basic lemmas -/

lemma FS.read_write_self (fs : FS) (p c : String) : (fs.write p c).read p = some c := by
  simp [FS.read, FS.write]

lemma FS.read_write_ne (fs : FS) {p q : String} (h : q ≠ p) (c : String) :
    (fs.write p c).read q = fs.read q := by
  simp [FS.read, FS.write, List.find?_cons, Ne.symm h]

lemma FS.read_mkdir (fs : FS) (p q : String) : (fs.mkdir p).read q = fs.read q := rfl

/-- A string is not an extension of a string whose characters it does not
start with. -/
lemma ne_append_of_not_isPrefixOf {s pre : String}
    (h : pre.data.isPrefixOf s.data = false) (t : String) : s ≠ pre ++ t := by
  intro he
  have hp : pre.data.isPrefixOf s.data = true := by
    rw [List.isPrefixOf_iff_prefix]
    exact ⟨t.data, by rw [he, String.data_append]⟩
  exact absurd (h.symm.trans hp) (by decide)

/-- A literal-headed list is not equal to a list it is not a prefix of. -/
lemma lit_append_ne {p q : String} (h : p.data.isPrefixOf q.data = false)
    (r : List Char) : p.data ++ r ≠ q.data := by
  intro he
  have hp : p.data.isPrefixOf q.data = true := by
    rw [List.isPrefixOf_iff_prefix]
    exact ⟨r, he⟩
  exact absurd (h.symm.trans hp) (by decide)

/-- The copied-audio path never collides with the external `config.py`. -/
lemma destAudio_ne_configPath (a n : String) :
    a ++ "/result/" ++ n ++ "/" ++ n ++ ".mp3" ≠ a ++ "/config.py" := by
  intro h
  have hd := congrArg String.data h
  simp only [String.data_append, List.append_assoc] at hd
  exact lit_append_ne (p := "/result/") (q := "/config.py") (by decide) _
    (List.append_cancel_left hd)

/-- The external `config.py` never collides with the synthesized driver path. -/
lemma configPath_ne_genScriptPath (a : String) :
    a ++ "/config.py" ≠ a ++ "/_ui_generate.py" := by
  intro h
  have hd := congrArg String.data h
  simp only [String.data_append] at hd
  exact absurd (List.append_cancel_left hd) (by decide)

lemma sanitizeChar_idem (c : Char) : sanitizeChar (sanitizeChar c) = sanitizeChar c := by
  by_cases h : isWordChar c
  · simp [sanitizeChar, h]
  · simp [sanitizeChar, h]

lemma sanitizeChar_word (c : Char) : isWordChar (sanitizeChar c) = true := by
  by_cases h : isWordChar c
  · simp [sanitizeChar, h]
  · simp only [sanitizeChar, h, Bool.false_eq_true, if_false]
    decide

/-- The sanitizer replaces characters one for one, so it preserves length. -/
lemma sanitize_length (name : String) :
    (sanitize_music_name name).length = name.length := by
  show (name.data.map sanitizeChar).length = name.data.length
  exact List.length_map _ _

/-- The sanitized form of `music_name or "untitled"` is never empty. -/
lemma sanitize_pyOr_ne_empty (m : String) :
    sanitize_music_name (pyOr m "untitled") ≠ "" := by
  intro h
  have hl := congrArg String.length h
  rw [sanitize_length] at hl
  unfold pyOr at hl
  by_cases hm : m = ""
  · rw [if_pos hm] at hl
    exact absurd hl (by decide)
  · rw [if_neg hm] at hl
    have : m.data = [] := List.length_eq_zero.mp hl
    exact hm (String.ext this)

/-! ## C7: the sanitizer is idempotent and produces only word characters -/

/-- C7: for every input string, `sanitize_music_name` is idempotent, and its
output contains only characters from `[A-Za-z0-9_]`. -/
theorem sanitize_music_name_idempotent_charset (name : String) :
    sanitize_music_name (sanitize_music_name name) = sanitize_music_name name ∧
    (sanitize_music_name name).data.all isWordChar = true := by
  constructor
  · apply String.ext
    show (name.data.map sanitizeChar).map sanitizeChar = name.data.map sanitizeChar
    rw [List.map_map]
    exact List.map_congr_left (fun c _ => sanitizeChar_idem c)
  · rw [List.all_eq_true]
    intro c hc
    obtain ⟨a, _, rfl⟩ := List.mem_map.mp hc
    exact sanitizeChar_word a

/-! ## C3: the patcher skips files already carrying the marker -/

/-- C3: on a target whose content already contains the marker, `patch_file`
reports "already patched" and leaves the file system untouched, and a second
run on the resulting state is the identical no-op; `patch_config` behaves the
same on its own marker `ARK_PROVIDER`. -/
theorem patch_file_already_patched_noop
    (repoDir filepath marker content ccontent : String)
    (replacements : List (String × String)) (fs fsc : FS)
    (hread : fs.read (repoDir ++ "/" ++ filepath) = some content)
    (hm : marker ≠ "") (hc : strContains content marker = true)
    (hcread : fsc.read (repoDir ++ "/config.py") = some ccontent)
    (hcc : strContains ccontent "ARK_PROVIDER" = true) :
    patch_file repoDir filepath replacements marker fs =
      (["  [OK] " ++ filepath ++ " already patched"], fs, true) ∧
    patch_file repoDir filepath replacements marker
        (patch_file repoDir filepath replacements marker fs).2.1 =
      (["  [OK] " ++ filepath ++ " already patched"], fs, true) ∧
    patch_config repoDir fsc =
      Except.ok (["  [OK] config.py already patched"], fsc, true) := by
  have h1 : patch_file repoDir filepath replacements marker fs =
      (["  [OK] " ++ filepath ++ " already patched"], fs, true) := by
    simp [patch_file, hread, hm, hc]
  refine ⟨h1, ?_, ?_⟩
  · rw [h1]
    exact h1
  · have hpath : repoDir ++ "/" ++ "config.py" = repoDir ++ "/config.py" := by
      rw [String.append_assoc]
      rfl
    simp [patch_config, hpath, hcread, hcc]

/-- Concrete witness for C3. -/
theorem patch_file_already_patched_noop_witness :
    patch_file "/r" "f.py" [("a", "b")] "MARK" ⟨[("/r/f.py", "xMARKy")], []⟩ =
      (["  [OK] f.py already patched"], ⟨[("/r/f.py", "xMARKy")], []⟩, true) ∧
    patch_file "/r" "f.py" [("a", "b")] "MARK"
        (patch_file "/r" "f.py" [("a", "b")] "MARK" ⟨[("/r/f.py", "xMARKy")], []⟩).2.1 =
      (["  [OK] f.py already patched"], ⟨[("/r/f.py", "xMARKy")], []⟩, true) ∧
    patch_config "/r" ⟨[("/r/config.py", "has ARK_PROVIDER here")], []⟩ =
      Except.ok (["  [OK] config.py already patched"],
        ⟨[("/r/config.py", "has ARK_PROVIDER here")], []⟩, true) :=
  patch_file_already_patched_noop "/r" "f.py" "MARK" "xMARKy" "has ARK_PROVIDER here"
    [("a", "b")] ⟨[("/r/f.py", "xMARKy")], []⟩ ⟨[("/r/config.py", "has ARK_PROVIDER here")], []⟩
    (by decide) (by decide) (by decide) (by decide) (by decide)

/-! ## C9: storyboard formatting with two segments and no label data -/

/-- C9: for a project directory whose `story.json` holds exactly two segments
and which has no `label.json`, `load_project` returns the two formatted
storyboard entries joined by the separator, and the literal
"No character data found." for the characters section. -/
theorem load_project_two_segments_no_label
    (resultDir projectName : String) (d : ProjectData) (s1 s2 : Seg)
    (hname : projectName ≠ "") (hstory : d.story = some [s1, s2])
    (hlabel : d.label = none) :
    (load_project resultDir projectName d).storyboard =
      fmtSeg s1 ++ "\n---\n" ++ fmtSeg s2 ∧
    (load_project resultDir projectName d).characters = "No character data found." := by
  unfold load_project
  rw [if_neg hname]
  constructor
  · simp [hstory, joinWith]
  · simp [hlabel]

/-- Concrete witness for C9. -/
theorem load_project_two_segments_no_label_witness :
    (load_project "/a/result" "p"
        ⟨false, some [⟨some "1", some "0.0", some "2.0", some "intro", some "la", some "sky"⟩,
                      ⟨some "2", some "2.0", some "4.0", some "verse", some "da", some "sea"⟩],
         none, none⟩).storyboard =
      fmtSeg ⟨some "1", some "0.0", some "2.0", some "intro", some "la", some "sky"⟩ ++
        "\n---\n" ++
        fmtSeg ⟨some "2", some "2.0", some "4.0", some "verse", some "da", some "sea"⟩ ∧
    (load_project "/a/result" "p"
        ⟨false, some [⟨some "1", some "0.0", some "2.0", some "intro", some "la", some "sky"⟩,
                      ⟨some "2", some "2.0", some "4.0", some "verse", some "da", some "sea"⟩],
         none, none⟩).characters = "No character data found." :=
  load_project_two_segments_no_label "/a/result" "p" _ _ _
    (by decide) rfl rfl

/-! ## C8: blank-value handling of the settings store -/

lemma lookup_setKey_self (e : EnvMap) (k v : String) :
    lookupEnv (setKeyL e k v) k = some v := by
  induction e with
  | nil => simp [setKeyL, lookupEnv]
  | cons hd tl ih =>
    by_cases hhd : hd.1 = k
    · simp [setKeyL, lookupEnv, hhd]
    · by_cases htl : tl.any (fun kv => kv.1 = k)
      · have h1 : setKeyL (hd :: tl) k v = hd :: setKeyL tl k v := by
          simp [setKeyL, hhd, htl]
        rw [h1]
        simpa [lookupEnv, List.find?_cons, hhd] using ih
      · have h1 : setKeyL (hd :: tl) k v = hd :: setKeyL tl k v := by
          simp [setKeyL, hhd, htl]
        rw [h1]
        simpa [lookupEnv, List.find?_cons, hhd] using ih

lemma lookup_map_upd (tl : EnvMap) {k k' : String} (h : k' ≠ k) (v : String) :
    lookupEnv (tl.map (fun kv => if kv.1 = k then (k, v) else kv)) k' =
      lookupEnv tl k' := by
  induction tl with
  | nil => rfl
  | cons hd tl ih =>
    by_cases hhd : hd.1 = k
    · have hne : hd.1 ≠ k' := fun hc => h (hc.symm.trans hhd)
      simp only [List.map_cons, if_pos hhd]
      simpa [lookupEnv, List.find?_cons, Ne.symm h, hne] using ih
    · simp only [List.map_cons, if_neg hhd]
      by_cases hk' : hd.1 = k'
      · simp [lookupEnv, List.find?_cons, hk']
      · simpa [lookupEnv, List.find?_cons, hk'] using ih

lemma lookup_setKey_ne (e : EnvMap) {k k' : String} (h : k' ≠ k) (v : String) :
    lookupEnv (setKeyL e k v) k' = lookupEnv e k' := by
  by_cases hany : e.any (fun kv => kv.1 = k)
  · rw [show setKeyL e k v = e.map (fun kv => if kv.1 = k then (k, v) else kv) from by
      simp [setKeyL, hany]]
    exact lookup_map_upd e h v
  · rw [show setKeyL e k v = e ++ [(k, v)] from by simp [setKeyL, hany]]
    simp [lookupEnv, List.find?_append, Ne.symm h]

/-- The value-saving fold of `save_env_settings`. -/
def saveFold (ps : List (String × String)) (e : EnvMap) : EnvMap :=
  ps.foldl (fun e kv => if pyStrip kv.2 ≠ "" then setKeyL e kv.1 (pyStrip kv.2) else e) e

lemma lookup_saveFold_unwritten (ps : List (String × String)) (e : EnvMap) (k : String)
    (h : ∀ p ∈ ps, pyStrip p.2 ≠ "" → p.1 ≠ k) :
    lookupEnv (saveFold ps e) k = lookupEnv e k := by
  induction ps generalizing e with
  | nil => rfl
  | cons p ps ih =>
    have hstep : lookupEnv (saveFold ps
        (if pyStrip p.2 ≠ "" then setKeyL e p.1 (pyStrip p.2) else e)) k =
        lookupEnv (if pyStrip p.2 ≠ "" then setKeyL e p.1 (pyStrip p.2) else e) k :=
      ih _ (fun q hq => h q (List.mem_cons_of_mem p hq))
    show lookupEnv (saveFold ps _) k = lookupEnv e k
    rw [hstep]
    by_cases hp : pyStrip p.2 ≠ ""
    · rw [if_pos hp]
      exact lookup_setKey_ne e (Ne.symm (h p (List.mem_cons_self p ps) hp)) _
    · rw [if_neg hp]

lemma mem_zip_nodup_eq {ks vs : List String} (hnd : ks.Nodup) {k v v' : String}
    (h1 : (k, v) ∈ ks.zip vs) (h2 : (k, v') ∈ ks.zip vs) : v = v' := by
  induction ks generalizing vs with
  | nil => simp [List.zip] at h1
  | cons a ks ih =>
    cases vs with
    | nil => simp [List.zip] at h1
    | cons b vs =>
      simp only [List.zip_cons_cons, List.mem_cons, Prod.mk.injEq] at h1 h2
      rcases h1 with ⟨hk1, hv1⟩ | h1 <;> rcases h2 with ⟨hk2, hv2⟩ | h2
      · rw [hv1, hv2]
      · exfalso
        have hmem : k ∈ ks := (List.of_mem_zip h2).1
        rw [hk1] at hmem
        exact (List.nodup_cons.mp hnd).1 hmem
      · exfalso
        have hmem : k ∈ ks := (List.of_mem_zip h1).1
        rw [hk2] at hmem
        exact (List.nodup_cons.mp hnd).1 hmem
      · exact ih (List.nodup_cons.mp hnd).2 h1 h2

/-- C8 (amended): the provider selector is written as the stripped supplied
provider when the supplied provider is non-empty (so a whitespace-only
provider is written as the empty string, not as "byteplus"), and as
"byteplus" when it is empty; every settings key whose supplied value is empty
or whitespace-only keeps its previous persisted value. -/
theorem save_env_settings_provider_and_blank_values
    (provider : String) (values : List String) (envFile : Option EnvMap) :
    (provider ≠ "" →
      lookupEnv (save_env_settings provider values envFile).1 "ARK_PROVIDER" =
        some (pyStrip provider)) ∧
    (provider = "" →
      lookupEnv (save_env_settings provider values envFile).1 "ARK_PROVIDER" =
        some "byteplus") ∧
    (∀ k v, (k, v) ∈ allSettingsKeys.zip values → pyStrip v = "" →
      lookupEnv (save_env_settings provider values envFile).1 k =
        (match envFile with | none => none | some e => lookupEnv e k)) := by
  have hbase : ∀ e0 : EnvMap,
      (save_env_settings provider values envFile).1 =
        saveFold (allSettingsKeys.zip values)
          (setKeyL (match envFile with | none => [] | some e => e) "ARK_PROVIDER"
            (if provider ≠ "" then pyStrip provider else "byteplus")) := by
    intro _
    rfl
  have hprov : ∀ p ∈ allSettingsKeys.zip values, pyStrip p.2 ≠ "" →
      p.1 ≠ "ARK_PROVIDER" := by
    intro p hp _
    intro hk
    have hmem : p.1 ∈ allSettingsKeys := (List.of_mem_zip hp).1
    rw [hk] at hmem
    exact absurd hmem (by decide)
  refine ⟨?_, ?_, ?_⟩
  · intro hne
    rw [hbase [], lookup_saveFold_unwritten _ _ _ hprov, lookup_setKey_self, if_pos hne]
  · intro heq
    rw [hbase [], lookup_saveFold_unwritten _ _ _ hprov, lookup_setKey_self,
      if_neg (fun hc => hc heq)]
  · intro k v hkv hblank
    have hnodup : allSettingsKeys.Nodup := by decide
    have hunwritten : ∀ p ∈ allSettingsKeys.zip values, pyStrip p.2 ≠ "" → p.1 ≠ k := by
      intro p hp hne hk
      have hp2 : (k, p.2) ∈ allSettingsKeys.zip values := by
        have heq : p = (k, p.2) := by
          obtain ⟨p1, p2⟩ := p
          simp only [Prod.mk.injEq]
          exact ⟨hk, trivial⟩
        rw [← heq]
        exact hp
      have hv2 : p.2 = v := mem_zip_nodup_eq hnodup hp2 hkv
      apply hne
      rw [hv2]
      exact hblank
    have hknotark : k ≠ "ARK_PROVIDER" := by
      intro hk
      have hmem : k ∈ allSettingsKeys := (List.of_mem_zip hkv).1
      rw [hk] at hmem
      exact absurd hmem (by decide)
    rw [hbase [], lookup_saveFold_unwritten _ _ _ hunwritten,
      lookup_setKey_ne _ hknotark _]
    cases envFile with
    | none => rfl
    | some e => rfl

/-- Concrete witness for the amended C8. -/
theorem save_env_settings_provider_and_blank_values_witness :
    lookupEnv (save_env_settings "" [" "] (some [("GEMINI_API_KEY", "old")])).1
      "ARK_PROVIDER" = some "byteplus" ∧
    lookupEnv (save_env_settings "" [" "] (some [("GEMINI_API_KEY", "old")])).1
      "GEMINI_API_KEY" = some "old" :=
  ⟨(save_env_settings_provider_and_blank_values "" [" "]
      (some [("GEMINI_API_KEY", "old")])).2.1 rfl,
   (save_env_settings_provider_and_blank_values "" [" "]
      (some [("GEMINI_API_KEY", "old")])).2.2 "GEMINI_API_KEY" " "
      (by decide) (by decide)⟩

/-- C8 counterexample: a whitespace-only provider is "blank", yet the code
writes the empty string as the provider selector, not "byteplus": Python's
truthiness test `if provider` is true for `" "`, so `provider.strip()` — the
empty string — is persisted. -/
theorem save_env_settings_blank_provider_cex :
    pyStrip " " = "" ∧
    lookupEnv (save_env_settings " " [] (some [])).1 "ARK_PROVIDER" = some "" ∧
    some "" ≠ some "byteplus" := by
  refine ⟨by decide, by decide, by decide⟩

/-! ## C4: missing patch targets -/

/-- C4 (amended): for the four targets guarded by an existence check
(`picture.py`, `video_generate_pipeline.py`, `call_gemini.py`, the lip-sync
file), a missing file yields "[SKIP] … not found" and returns `False` without
raising; `patch_config`, however, opens `config.py` before any existence
check, so a missing `config.py` raises `FileNotFoundError`; whenever
`config.py` is readable (and the repo directory exists) the batch runs to
completion over any combination of missing remaining targets. -/
theorem patch_missing_target_skips (repoDir : String) (fs : FS) :
    (fs.read (repoDir ++ "/" ++ "picture_generate/picture.py") = none →
      patch_picture repoDir fs =
        (["  [SKIP] picture_generate/picture.py not found"], fs, false)) ∧
    (fs.read (repoDir ++ "/" ++ "video_generate/video_generate_pipeline.py") = none →
      patch_video_pipeline repoDir fs =
        (["  [SKIP] video_generate/video_generate_pipeline.py not found"], fs, false)) ∧
    (fs.read (repoDir ++ "/" ++ "video_generate/call_gemini.py") = none →
      patch_call_gemini repoDir fs =
        (["  [SKIP] video_generate/call_gemini.py not found"], fs, false)) ∧
    (fs.read (repoDir ++ "/" ++ "generate_lip_video/gen_lip_sycn_video_jimeng.py") = none →
      patch_lip_sync repoDir fs =
        (["  [SKIP] generate_lip_video/gen_lip_sycn_video_jimeng.py not found"], fs, false)) ∧
    (fs.read (repoDir ++ "/" ++ "config.py") = none →
      patch_config repoDir fs = Except.error "FileNotFoundError") ∧
    (fs.existsP repoDir = true → (fs.read (repoDir ++ "/" ++ "config.py")).isSome = true →
      ∃ out, mainPatch repoDir fs = Except.ok out) := by
  refine ⟨?_, ?_, ?_, ?_, ?_, ?_⟩
  · intro h
    simp [patch_picture, patch_file, h]
  · intro h
    simp [patch_video_pipeline, patch_file, h]
  · intro h
    simp [patch_call_gemini, patch_file, h]
  · intro h
    simp [patch_lip_sync, h]
  · intro h
    simp [patch_config, h]
  · intro hex hconf
    obtain ⟨c, hc⟩ := Option.isSome_iff_exists.mp hconf
    have hcfg : ∃ r, patch_config repoDir fs = Except.ok r := by
      simp only [patch_config, hc]
      by_cases hin : strContains c "ARK_PROVIDER" = true
      · exact ⟨_, by rw [if_pos hin]⟩
      · exact ⟨_, by rw [if_neg hin]⟩
    obtain ⟨r, hr⟩ := hcfg
    have hnn : ¬¬(fs.existsP repoDir = true) := fun hn => hn hex
    exact ⟨_, by unfold mainPatch; rw [if_neg hnn, hr]⟩

/-- Concrete witness for the amended C4: all four guarded targets missing,
`config.py` present — every guarded step skips and the batch completes. -/
theorem patch_missing_target_skips_witness :
    patch_picture "/r" ⟨[("/r/config.py", "x")], ["/r"]⟩ =
      (["  [SKIP] picture_generate/picture.py not found"],
        ⟨[("/r/config.py", "x")], ["/r"]⟩, false) ∧
    patch_lip_sync "/r" ⟨[("/r/config.py", "x")], ["/r"]⟩ =
      (["  [SKIP] generate_lip_video/gen_lip_sycn_video_jimeng.py not found"],
        ⟨[("/r/config.py", "x")], ["/r"]⟩, false) ∧
    ∃ out, mainPatch "/r" ⟨[("/r/config.py", "x")], ["/r"]⟩ = Except.ok out :=
  ⟨(patch_missing_target_skips "/r" ⟨[("/r/config.py", "x")], ["/r"]⟩).1 (by decide),
   (patch_missing_target_skips "/r" ⟨[("/r/config.py", "x")], ["/r"]⟩).2.2.2.1 (by decide),
   (patch_missing_target_skips "/r" ⟨[("/r/config.py", "x")], ["/r"]⟩).2.2.2.2.2
     (by decide) (by decide)⟩

/-- C4 counterexample: with the repo directory and all four guarded targets
present but `config.py` absent, the `config.py` step does not report
"skipped, not found" — it raises `FileNotFoundError` (the file is opened
before any existence check), and the batch aborts instead of continuing. -/
theorem patch_config_missing_file_raises_cex :
    patch_config "/repo" ⟨[("/repo/picture_generate/picture.py", "a"),
        ("/repo/video_generate/video_generate_pipeline.py", "b"),
        ("/repo/video_generate/call_gemini.py", "c"),
        ("/repo/generate_lip_video/gen_lip_sycn_video_jimeng.py", "d")], ["/repo"]⟩ =
      Except.error "FileNotFoundError" ∧
    mainPatch "/repo" ⟨[("/repo/picture_generate/picture.py", "a"),
        ("/repo/video_generate/video_generate_pipeline.py", "b"),
        ("/repo/video_generate/call_gemini.py", "c"),
        ("/repo/generate_lip_video/gen_lip_sycn_video_jimeng.py", "d")], ["/repo"]⟩ =
      Except.error "FileNotFoundError" := by
  exact ⟨rfl, rfl⟩

/-! ## C1: the config-mutation scope always restores the original content -/

/-- C1: whatever the outcome of the run — validation failure, stage-1
failure, stage-2 failure, success, or an exception injected at any point
inside the `try` scope — the external `config.py` content in the final file
system equals its content before the run (the `finally` block writes the
captured original back, and runs that never open the scope never touch the
file). -/
theorem generate_music_video_restores_config
    (automvDir : String) (audioFile : Option String)
    (musicName lipSync resolution : String) (env : EnvMap) (w : World) (fs0 : FS)
    (orig : String) (h : fs0.read (automvDir ++ "/config.py") = some orig) :
    (generate_music_video automvDir audioFile musicName lipSync resolution env w
      fs0).fs.read (automvDir ++ "/config.py") = some orig := by
  unfold generate_music_video
  simp only []
  split
  · exact h
  · split
    · exact h
    · split
      · exact h
      · split
        · exact h
        · split
          · rename_i hnone
            rw [FS.read_write_ne _ (Ne.symm (destAudio_ne_configPath automvDir _)) _,
              FS.read_mkdir, h] at hnone
            exact absurd hnone (by simp)
          · rename_i originalConfig hsome
            rw [FS.read_write_ne _ (Ne.symm (destAudio_ne_configPath automvDir _)) _,
              FS.read_mkdir, h] at hsome
            have heq : orig = originalConfig := by
              injection hsome
            rw [← heq]
            exact FS.read_write_self _ _ _

/-- Concrete witness for C1 (a successful run). -/
theorem generate_music_video_restores_config_witness :
    (generate_music_video "/a" (some "t.mp3") "s" "None" "480p"
      [("GEMINI_API_KEY", "g"), ("DOUBAO_API_KEY", "d")]
      ⟨["l1\n"], 0, ["m\n"], 0, true, "AUD", none⟩
      ⟨[("/a/config.py", "music_name = \"1\"")], []⟩).fs.read ("/a" ++ "/config.py") =
      some "music_name = \"1\"" :=
  generate_music_video_restores_config "/a" (some "t.mp3") "s" "None" "480p"
    [("GEMINI_API_KEY", "g"), ("DOUBAO_API_KEY", "d")]
    ⟨["l1\n"], 0, ["m\n"], 0, true, "AUD", none⟩
    ⟨[("/a/config.py", "music_name = \"1\"")], []⟩ "music_name = \"1\"" (by decide)

/-! ## C6: a stage-1 failure halts the run before any stage-2 activity -/

/-- A pattern placed between two other strings is contained as a substring. -/
lemma strContains_middle (a p b : String) : strContains (a ++ p ++ b) p = true := by
  unfold strContains
  rw [List.any_eq_true]
  refine ⟨p.data ++ b.data, ?_, ?_⟩
  · rw [List.mem_tails]
    exact ⟨a.data, by simp [String.data_append, List.append_assoc]⟩
  · rw [List.isPrefixOf_iff_prefix]
    exact List.prefix_append _ _

/-- Reduction of the `try` body when no exception fires and the stage-1 child
exits with a non-zero code: the failure line is appended and yielded, and the
body ends with no further events beyond the stage-1 spawn. -/
lemma tryBody_stage1_fail (automvDir musicName lipSync resolution projectDir : String)
    (w : World) (log0 : String) (fs : FS) (hexn : w.exn = none)
    (hexit : w.stage1Exit ≠ 0) :
    tryBody automvDir musicName lipSync resolution projectDir w log0 fs =
      ⟨(streamLines (log0 ++ "--- Stage 1: Picture Generation ---\n" ++
          "Running SongFormer analysis + image generation...\n")
          [log0 ++ "--- Stage 1: Picture Generation ---\n" ++
          "Running SongFormer analysis + image generation...\n"] w.stage1Lines).2 ++
        [(streamLines (log0 ++ "--- Stage 1: Picture Generation ---\n" ++
          "Running SongFormer analysis + image generation...\n")
          [log0 ++ "--- Stage 1: Picture Generation ---\n" ++
          "Running SongFormer analysis + image generation...\n"] w.stage1Lines).1 ++
          "\nStage 1 failed with exit code " ++ toString w.stage1Exit ++ "\n"],
       fs, [Event.spawnE 1], false⟩ := by
  unfold tryBody
  rw [hexn]
  simp only []
  rw [if_neg (show ¬((none : Option ExnPoint) = some ExnPoint.duringStage1) by simp),
    if_pos hexit]

/-- C6: when the run reaches stage 1 and the stage-1 child exits with a
non-zero code (no exception interfering), the yielded log contains the
"Stage 1 failed with exit code <code>" line, no stage-2 process is spawned,
and the stage-2 driver file is never written. -/
theorem stage1_failure_no_stage2
    (automvDir : String) (audioFile : Option String)
    (musicName lipSync resolution : String) (env : EnvMap) (w : World) (fs0 : FS)
    (orig : String)
    (haf : audioFile.getD "" ≠ "")
    (hkeys : ((API_KEYS.take 2).filter (fun kl => ¬ envTruthy env kl.1)).map
      (fun kl => kl.2) = [])
    (hext : asciiLower (splitextExt (audioFile.getD "")) = ".mp3" ∨
      asciiLower (splitextExt (audioFile.getD "")) = ".wav")
    (hcfg : fs0.read (automvDir ++ "/config.py") = some orig)
    (hexit : w.stage1Exit ≠ 0) (hexn : w.exn = none) :
    (∃ y ∈ (generate_music_video automvDir audioFile musicName lipSync resolution
        env w fs0).yields,
      strContains y ("Stage 1 failed with exit code " ++ toString w.stage1Exit) = true) ∧
    Event.spawnE 2 ∉ (generate_music_video automvDir audioFile musicName lipSync
      resolution env w fs0).events ∧
    (∀ c, Event.writeE (automvDir ++ "/_ui_generate.py") c ∉
      (generate_music_video automvDir audioFile musicName lipSync resolution
        env w fs0).events) := by
  unfold generate_music_video
  simp only []
  rw [if_neg haf, if_neg (sanitize_pyOr_ne_empty musicName),
    if_neg (show ¬(((API_KEYS.take 2).filter (fun kl => ¬ envTruthy env kl.1)).map
      (fun kl => kl.2) ≠ []) from fun hc => hc hkeys),
    if_neg (show ¬¬(asciiLower (splitextExt (audioFile.getD "")) = ".mp3" ∨
      asciiLower (splitextExt (audioFile.getD "")) = ".wav") from fun hc => hc hext),
    FS.read_write_ne _ (Ne.symm (destAudio_ne_configPath automvDir _)) _,
    FS.read_mkdir, hcfg]
  simp only []
  rw [tryBody_stage1_fail _ _ _ _ _ _ _ _ hexn hexit]
  have hsplitLit : ("\nStage 1 failed with exit code " : String) =
      "\n" ++ "Stage 1 failed with exit code " := rfl
  refine ⟨⟨_, List.mem_append_right _ (List.mem_append_right _
    (List.mem_singleton_self _)), ?_⟩, ?_, ?_⟩
  · rw [show ∀ pre : String,
        pre ++ "\nStage 1 failed with exit code " ++ toString w.stage1Exit ++ "\n" =
        (pre ++ "\n") ++ ("Stage 1 failed with exit code " ++
          toString w.stage1Exit) ++ "\n" from fun pre => by
          rw [hsplitLit]
          simp only [String.append_assoc]]
    exact strContains_middle _ _ _
  · simp
  · intro c
    simp [configPath_ne_genScriptPath automvDir,
      Ne.symm (configPath_ne_genScriptPath automvDir)]

/-- Concrete witness for C6. -/
theorem stage1_failure_no_stage2_witness :
    (∃ y ∈ (generate_music_video "/a" (some "t.mp3") "s" "None" "480p"
        [("GEMINI_API_KEY", "g"), ("DOUBAO_API_KEY", "d")]
        ⟨["l1\n"], 1, [], 0, false, "AUD", none⟩
        ⟨[("/a/config.py", "cfg")], []⟩).yields,
      strContains y ("Stage 1 failed with exit code " ++ toString (1 : Int)) = true) ∧
    Event.spawnE 2 ∉ (generate_music_video "/a" (some "t.mp3") "s" "None" "480p"
      [("GEMINI_API_KEY", "g"), ("DOUBAO_API_KEY", "d")]
      ⟨["l1\n"], 1, [], 0, false, "AUD", none⟩
      ⟨[("/a/config.py", "cfg")], []⟩).events ∧
    (∀ c, Event.writeE ("/a" ++ "/_ui_generate.py") c ∉
      (generate_music_video "/a" (some "t.mp3") "s" "None" "480p"
        [("GEMINI_API_KEY", "g"), ("DOUBAO_API_KEY", "d")]
        ⟨["l1\n"], 1, [], 0, false, "AUD", none⟩
        ⟨[("/a/config.py", "cfg")], []⟩).events) :=
  stage1_failure_no_stage2 "/a" (some "t.mp3") "s" "None" "480p"
    [("GEMINI_API_KEY", "g"), ("DOUBAO_API_KEY", "d")]
    ⟨["l1\n"], 1, [], 0, false, "AUD", none⟩
    ⟨[("/a/config.py", "cfg")], []⟩ "cfg"
    (by decide) (by decide) (Or.inl (by decide)) (by decide) (by decide) rfl

/-! ## C2: rejection of unsupported audio extensions -/

/-- C2 (amended): when a run with an unsupported audio extension passes the
earlier validations, it ends with the "Only .mp3 and .wav" error as its final
yield, no file is created or modified, no process is spawned and nothing is
raised — but the project directory HAS already been created, because
`os.makedirs` precedes the extension check. -/
theorem unsupported_extension_rejected
    (automvDir : String) (audioFile : Option String)
    (musicName lipSync resolution : String) (env : EnvMap) (w : World) (fs0 : FS)
    (haf : audioFile.getD "" ≠ "")
    (hkeys : ((API_KEYS.take 2).filter (fun kl => ¬ envTruthy env kl.1)).map
      (fun kl => kl.2) = [])
    (hext : ¬(asciiLower (splitextExt (audioFile.getD "")) = ".mp3" ∨
      asciiLower (splitextExt (audioFile.getD "")) = ".wav")) :
    (generate_music_video automvDir audioFile musicName lipSync resolution env w
      fs0).yields.getLast? = some errExt ∧
    (generate_music_video automvDir audioFile musicName lipSync resolution env w
      fs0).events = [Event.mkdirE (automvDir ++ "/result/" ++
        sanitize_music_name (pyOr musicName "untitled"))] ∧
    (generate_music_video automvDir audioFile musicName lipSync resolution env w
      fs0).fs = fs0.mkdir (automvDir ++ "/result/" ++
        sanitize_music_name (pyOr musicName "untitled")) ∧
    (generate_music_video automvDir audioFile musicName lipSync resolution env w
      fs0).raised = false := by
  unfold generate_music_video
  simp only []
  rw [if_neg haf, if_neg (sanitize_pyOr_ne_empty musicName),
    if_neg (show ¬(((API_KEYS.take 2).filter (fun kl => ¬ envTruthy env kl.1)).map
      (fun kl => kl.2) ≠ []) from fun hc => hc hkeys),
    if_pos hext]
  exact ⟨List.getLast?_concat _, rfl, rfl, rfl⟩

/-- Concrete witness for the amended C2. -/
theorem unsupported_extension_rejected_witness :
    (generate_music_video "/a" (some "t.flac") "song" "None" "480p"
      [("GEMINI_API_KEY", "g"), ("DOUBAO_API_KEY", "d")]
      ⟨[], 0, [], 0, false, "AUD", none⟩ ⟨[("/a/config.py", "cfg")], []⟩).yields.getLast? =
      some errExt ∧
    (generate_music_video "/a" (some "t.flac") "song" "None" "480p"
      [("GEMINI_API_KEY", "g"), ("DOUBAO_API_KEY", "d")]
      ⟨[], 0, [], 0, false, "AUD", none⟩ ⟨[("/a/config.py", "cfg")], []⟩).events =
      [Event.mkdirE ("/a" ++ "/result/" ++ sanitize_music_name (pyOr "song" "untitled"))] ∧
    (generate_music_video "/a" (some "t.flac") "song" "None" "480p"
      [("GEMINI_API_KEY", "g"), ("DOUBAO_API_KEY", "d")]
      ⟨[], 0, [], 0, false, "AUD", none⟩ ⟨[("/a/config.py", "cfg")], []⟩).fs =
      FS.mkdir ⟨[("/a/config.py", "cfg")], []⟩
        ("/a" ++ "/result/" ++ sanitize_music_name (pyOr "song" "untitled")) ∧
    (generate_music_video "/a" (some "t.flac") "song" "None" "480p"
      [("GEMINI_API_KEY", "g"), ("DOUBAO_API_KEY", "d")]
      ⟨[], 0, [], 0, false, "AUD", none⟩ ⟨[("/a/config.py", "cfg")], []⟩).raised = false :=
  unsupported_extension_rejected "/a" (some "t.flac") "song" "None" "480p"
    [("GEMINI_API_KEY", "g"), ("DOUBAO_API_KEY", "d")]
    ⟨[], 0, [], 0, false, "AUD", none⟩ ⟨[("/a/config.py", "cfg")], []⟩
    (by decide) (by decide) (by decide)

/-- C2 counterexample: a run rejected for its `.flac` extension yields only
the error line, yet its event trace is non-empty — the project directory was
created (`os.makedirs` at `app.py` line 124 runs before the extension check at
line 127), contradicting "no file or directory is created or modified". -/
theorem unsupported_extension_side_effect_cex :
    (generate_music_video "/a" (some "t.flac") "song" "None" "480p"
      [("GEMINI_API_KEY", "g"), ("DOUBAO_API_KEY", "d")]
      ⟨[], 0, [], 0, false, "AUD", none⟩ ⟨[("/a/config.py", "cfg")], []⟩).yields =
      ["Error: Only .mp3 and .wav files are supported."] ∧
    (generate_music_video "/a" (some "t.flac") "song" "None" "480p"
      [("GEMINI_API_KEY", "g"), ("DOUBAO_API_KEY", "d")]
      ⟨[], 0, [], 0, false, "AUD", none⟩ ⟨[("/a/config.py", "cfg")], []⟩).events =
      [Event.mkdirE "/a/result/song"] ∧
    (generate_music_video "/a" (some "t.flac") "song" "None" "480p"
      [("GEMINI_API_KEY", "g"), ("DOUBAO_API_KEY", "d")]
      ⟨[], 0, [], 0, false, "AUD", none⟩ ⟨[("/a/config.py", "cfg")], []⟩).events ≠ [] := by
  exact ⟨rfl, rfl, by decide⟩

/-! ## C5: lip-sync downgrade under the BytePlus provider -/

/-- C5: when the resolved provider is "byteplus" and a lip-sync mode other
than "None" is requested (and the run passes the earlier validations), the run
equals the same run invoked with lip-sync "None", except that the downgrade
warning is yielded first — before any other yield, any side effect and any
stage spawn. -/
theorem byteplus_lipsync_downgrade
    (automvDir : String) (audioFile : Option String)
    (musicName lipSync resolution : String) (env : EnvMap) (w : World) (fs0 : FS)
    (haf : audioFile.getD "" ≠ "")
    (hkeys : ((API_KEYS.take 2).filter (fun kl => ¬ envTruthy env kl.1)).map
      (fun kl => kl.2) = [])
    (hprov : providerOf env = "byteplus") (hlip : lipSync ≠ "None") :
    generate_music_video automvDir audioFile musicName lipSync resolution env w fs0 =
      ⟨warnLipSync ::
        (generate_music_video automvDir audioFile musicName "None" resolution env w
          fs0).yields,
       (generate_music_video automvDir audioFile musicName "None" resolution env w
          fs0).fs,
       (generate_music_video automvDir audioFile musicName "None" resolution env w
          fs0).events,
       (generate_music_video automvDir audioFile musicName "None" resolution env w
          fs0).raised⟩ := by
  unfold generate_music_video
  simp only []
  rw [if_neg haf, if_neg haf, if_neg (sanitize_pyOr_ne_empty musicName),
    if_neg (sanitize_pyOr_ne_empty musicName),
    if_neg (show ¬(((API_KEYS.take 2).filter (fun kl => ¬ envTruthy env kl.1)).map
      (fun kl => kl.2) ≠ []) from fun hc => hc hkeys),
    if_neg (show ¬(((API_KEYS.take 2).filter (fun kl => ¬ envTruthy env kl.1)).map
      (fun kl => kl.2) ≠ []) from fun hc => hc hkeys),
    if_pos (show providerOf env = "byteplus" ∧ lipSync ≠ "None" from ⟨hprov, hlip⟩),
    if_pos (show providerOf env = "byteplus" ∧ lipSync ≠ "None" from ⟨hprov, hlip⟩),
    if_neg (show ¬(providerOf env = "byteplus" ∧ ("None" : String) ≠ "None") from
      fun hc => hc.2 rfl),
    if_neg (show ¬(providerOf env = "byteplus" ∧ ("None" : String) ≠ "None") from
      fun hc => hc.2 rfl)]
  by_cases hx : ¬(asciiLower (splitextExt (audioFile.getD "")) = ".mp3" ∨
      asciiLower (splitextExt (audioFile.getD "")) = ".wav")
  · rw [if_pos hx, if_pos hx]
    simp
  · rw [if_neg hx, if_neg hx]
    split
    · simp
    · simp [String.append_assoc]

/-- Concrete witness for C5 (provider defaults to "byteplus" when unset). -/
theorem byteplus_lipsync_downgrade_witness :
    generate_music_video "/a" (some "t.mp3") "s" "Jimeng (fast)" "480p"
      [("GEMINI_API_KEY", "g"), ("DOUBAO_API_KEY", "d")]
      ⟨["l1\n"], 0, ["m\n"], 0, true, "AUD", none⟩
      ⟨[("/a/config.py", "cfg")], []⟩ =
      ⟨warnLipSync ::
        (generate_music_video "/a" (some "t.mp3") "s" "None" "480p"
          [("GEMINI_API_KEY", "g"), ("DOUBAO_API_KEY", "d")]
          ⟨["l1\n"], 0, ["m\n"], 0, true, "AUD", none⟩
          ⟨[("/a/config.py", "cfg")], []⟩).yields,
       (generate_music_video "/a" (some "t.mp3") "s" "None" "480p"
          [("GEMINI_API_KEY", "g"), ("DOUBAO_API_KEY", "d")]
          ⟨["l1\n"], 0, ["m\n"], 0, true, "AUD", none⟩
          ⟨[("/a/config.py", "cfg")], []⟩).fs,
       (generate_music_video "/a" (some "t.mp3") "s" "None" "480p"
          [("GEMINI_API_KEY", "g"), ("DOUBAO_API_KEY", "d")]
          ⟨["l1\n"], 0, ["m\n"], 0, true, "AUD", none⟩
          ⟨[("/a/config.py", "cfg")], []⟩).events,
       (generate_music_video "/a" (some "t.mp3") "s" "None" "480p"
          [("GEMINI_API_KEY", "g"), ("DOUBAO_API_KEY", "d")]
          ⟨["l1\n"], 0, ["m\n"], 0, true, "AUD", none⟩
          ⟨[("/a/config.py", "cfg")], []⟩).raised⟩ :=
  byteplus_lipsync_downgrade "/a" (some "t.mp3") "s" "Jimeng (fast)" "480p"
    [("GEMINI_API_KEY", "g"), ("DOUBAO_API_KEY", "d")]
    ⟨["l1\n"], 0, ["m\n"], 0, true, "AUD", none⟩
    ⟨[("/a/config.py", "cfg")], []⟩
    (by decide) (by decide) (by decide) (by decide)

/-! ## C10: the sanitizer preserves length; the empty-name error is dead code -/

lemma ext_of_ext {y log0 : String} (a : String) (h : ∃ t, y = (log0 ++ a) ++ t) :
    ∃ u, y = log0 ++ u := by
  obtain ⟨t, ht⟩ := h
  exact ⟨a ++ t, by rw [ht, String.append_assoc]⟩

lemma ext_append {y log0 : String} (h : ∃ t, y = log0 ++ t) (b : String) :
    ∃ u, y ++ b = log0 ++ u := by
  obtain ⟨t, ht⟩ := h
  exact ⟨t ++ b, by rw [ht, String.append_assoc]⟩

lemma ext_trans {y m log0 : String} (h1 : ∃ t, y = m ++ t) (h2 : ∃ t, m = log0 ++ t) :
    ∃ u, y = log0 ++ u := by
  obtain ⟨t1, ht1⟩ := h1
  obtain ⟨t2, ht2⟩ := h2
  exact ⟨t2 ++ t1, by rw [ht1, ht2, String.append_assoc]⟩

lemma ext_self (log0 : String) : ∃ u, log0 = log0 ++ u :=
  ⟨"", (String.append_empty _).symm⟩

lemma ext_head (a b : String) : ∃ t, a ++ b = a ++ t := ⟨b, rfl⟩

/-- Every value yielded by the streaming loop is either an inherited yield or
an extension of the log at loop entry. -/
lemma streamLines_mem (lines : List String) (log : String) (ys : List String) :
    ∀ y ∈ (streamLines log ys lines).2, y ∈ ys ∨ ∃ t, y = log ++ t := by
  induction lines generalizing log ys with
  | nil =>
    intro y hy
    exact Or.inl hy
  | cons l rest ih =>
    intro y hy
    rcases ih (log ++ l) (ys ++ [log ++ l]) y hy with hmem | hl
    · rcases List.mem_append.mp hmem with h1 | h2
      · exact Or.inl h1
      · exact Or.inr ⟨l, List.mem_singleton.mp h2⟩
    · exact Or.inr (ext_of_ext l hl)

/-- The log after the streaming loop extends the log at loop entry. -/
lemma streamLines_fst (lines : List String) (log : String) (ys : List String) :
    ∃ t, (streamLines log ys lines).1 = log ++ t := by
  induction lines generalizing log ys with
  | nil => exact ext_self log
  | cons l rest ih => exact ext_of_ext l (ih (log ++ l) (ys ++ [log ++ l]))

/-- Every value yielded inside the `try` body extends the log at entry. -/
lemma tryBody_yields_ext (automvDir musicName lipSync resolution projectDir : String)
    (w : World) (log0 : String) (fs : FS) :
    ∀ y ∈ (tryBody automvDir musicName lipSync resolution projectDir w log0 fs).yields,
      ∃ t, y = log0 ++ t := by
  have hlog1 : ∃ t, (log0 ++ "--- Stage 1: Picture Generation ---\n" ++
      "Running SongFormer analysis + image generation...\n") = log0 ++ t :=
    ext_append (ext_append (ext_self log0) _) _
  have hs1snd := streamLines_mem w.stage1Lines
    (log0 ++ "--- Stage 1: Picture Generation ---\n" ++
      "Running SongFormer analysis + image generation...\n")
    [log0 ++ "--- Stage 1: Picture Generation ---\n" ++
      "Running SongFormer analysis + image generation...\n"]
  have hs1mem : ∀ y ∈ (streamLines (log0 ++ "--- Stage 1: Picture Generation ---\n" ++
      "Running SongFormer analysis + image generation...\n")
      [log0 ++ "--- Stage 1: Picture Generation ---\n" ++
      "Running SongFormer analysis + image generation...\n"] w.stage1Lines).2,
      ∃ t, y = log0 ++ t := by
    intro y hy
    rcases hs1snd y hy with h | h
    · rw [List.mem_singleton.mp h]
      exact hlog1
    · exact ext_trans h hlog1
  have hs1fst : ∃ t, (streamLines (log0 ++ "--- Stage 1: Picture Generation ---\n" ++
      "Running SongFormer analysis + image generation...\n")
      [log0 ++ "--- Stage 1: Picture Generation ---\n" ++
      "Running SongFormer analysis + image generation...\n"] w.stage1Lines).1 =
      log0 ++ t :=
    ext_trans (streamLines_fst _ _ _) hlog1
  unfold tryBody
  simp only []
  by_cases h1 : w.exn = some ExnPoint.duringStage1
  · rw [if_pos h1]
    intro y hy
    rw [List.mem_singleton.mp hy]
    exact hlog1
  · rw [if_neg h1]
    by_cases h2 : w.stage1Exit ≠ 0
    · rw [if_pos h2]
      intro y hy
      rcases List.mem_append.mp hy with h | h
      · exact hs1mem y h
      · rw [List.mem_singleton.mp h]
        exact ext_append (ext_append (ext_append hs1fst _) _) _
    · rw [if_neg h2]
      have hys3 : ∀ y ∈ (streamLines (log0 ++ "--- Stage 1: Picture Generation ---\n" ++
          "Running SongFormer analysis + image generation...\n")
          [log0 ++ "--- Stage 1: Picture Generation ---\n" ++
          "Running SongFormer analysis + image generation...\n"] w.stage1Lines).2 ++
          [(streamLines (log0 ++ "--- Stage 1: Picture Generation ---\n" ++
          "Running SongFormer analysis + image generation...\n")
          [log0 ++ "--- Stage 1: Picture Generation ---\n" ++
          "Running SongFormer analysis + image generation...\n"] w.stage1Lines).1 ++
          "\nStage 1 complete.\n\n"],
          ∃ t, y = log0 ++ t := by
        intro y hy
        rcases List.mem_append.mp hy with h | h
        · exact hs1mem y h
        · rw [List.mem_singleton.mp h]
          exact ext_append hs1fst _
      by_cases h3 : w.exn = some ExnPoint.beforeScriptWrite
      · rw [if_pos h3]
        exact hys3
      · rw [if_neg h3]
        have hlog5 : ∃ t, ((streamLines (log0 ++ "--- Stage 1: Picture Generation ---\n" ++
            "Running SongFormer analysis + image generation...\n")
            [log0 ++ "--- Stage 1: Picture Generation ---\n" ++
            "Running SongFormer analysis + image generation...\n"] w.stage1Lines).1 ++
            "\nStage 1 complete.\n\n" ++ "--- Stage 2: Video Generation ---\n" ++
            "Generating video clips and assembling final MV...\n") = log0 ++ t :=
          ext_append (ext_append (ext_append hs1fst _) _) _
        have hys4 : ∀ y ∈ (streamLines (log0 ++ "--- Stage 1: Picture Generation ---\n" ++
            "Running SongFormer analysis + image generation...\n")
            [log0 ++ "--- Stage 1: Picture Generation ---\n" ++
            "Running SongFormer analysis + image generation...\n"] w.stage1Lines).2 ++
            [(streamLines (log0 ++ "--- Stage 1: Picture Generation ---\n" ++
            "Running SongFormer analysis + image generation...\n")
            [log0 ++ "--- Stage 1: Picture Generation ---\n" ++
            "Running SongFormer analysis + image generation...\n"] w.stage1Lines).1 ++
            "\nStage 1 complete.\n\n"] ++
            [(streamLines (log0 ++ "--- Stage 1: Picture Generation ---\n" ++
            "Running SongFormer analysis + image generation...\n")
            [log0 ++ "--- Stage 1: Picture Generation ---\n" ++
            "Running SongFormer analysis + image generation...\n"] w.stage1Lines).1 ++
            "\nStage 1 complete.\n\n" ++ "--- Stage 2: Video Generation ---\n" ++
            "Generating video clips and assembling final MV...\n"],
            ∃ t, y = log0 ++ t := by
          intro y hy
          rcases List.mem_append.mp hy with h | h
          · exact hys3 y h
          · rw [List.mem_singleton.mp h]
            exact hlog5
        have hs2mem : ∀ y ∈ (streamLines ((streamLines
            (log0 ++ "--- Stage 1: Picture Generation ---\n" ++
            "Running SongFormer analysis + image generation...\n")
            [log0 ++ "--- Stage 1: Picture Generation ---\n" ++
            "Running SongFormer analysis + image generation...\n"] w.stage1Lines).1 ++
            "\nStage 1 complete.\n\n" ++ "--- Stage 2: Video Generation ---\n" ++
            "Generating video clips and assembling final MV...\n")
            ((streamLines (log0 ++ "--- Stage 1: Picture Generation ---\n" ++
            "Running SongFormer analysis + image generation...\n")
            [log0 ++ "--- Stage 1: Picture Generation ---\n" ++
            "Running SongFormer analysis + image generation...\n"] w.stage1Lines).2 ++
            [(streamLines (log0 ++ "--- Stage 1: Picture Generation ---\n" ++
            "Running SongFormer analysis + image generation...\n")
            [log0 ++ "--- Stage 1: Picture Generation ---\n" ++
            "Running SongFormer analysis + image generation...\n"] w.stage1Lines).1 ++
            "\nStage 1 complete.\n\n"] ++
            [(streamLines (log0 ++ "--- Stage 1: Picture Generation ---\n" ++
            "Running SongFormer analysis + image generation...\n")
            [log0 ++ "--- Stage 1: Picture Generation ---\n" ++
            "Running SongFormer analysis + image generation...\n"] w.stage1Lines).1 ++
            "\nStage 1 complete.\n\n" ++ "--- Stage 2: Video Generation ---\n" ++
            "Generating video clips and assembling final MV...\n"]) w.stage2Lines).2,
            ∃ t, y = log0 ++ t := by
          intro y hy
          rcases streamLines_mem _ _ _ y hy with h | h
          · exact hys4 y h
          · exact ext_trans h hlog5
        have hs2fst : ∃ t, (streamLines ((streamLines
            (log0 ++ "--- Stage 1: Picture Generation ---\n" ++
            "Running SongFormer analysis + image generation...\n")
            [log0 ++ "--- Stage 1: Picture Generation ---\n" ++
            "Running SongFormer analysis + image generation...\n"] w.stage1Lines).1 ++
            "\nStage 1 complete.\n\n" ++ "--- Stage 2: Video Generation ---\n" ++
            "Generating video clips and assembling final MV...\n")
            ((streamLines (log0 ++ "--- Stage 1: Picture Generation ---\n" ++
            "Running SongFormer analysis + image generation...\n")
            [log0 ++ "--- Stage 1: Picture Generation ---\n" ++
            "Running SongFormer analysis + image generation...\n"] w.stage1Lines).2 ++
            [(streamLines (log0 ++ "--- Stage 1: Picture Generation ---\n" ++
            "Running SongFormer analysis + image generation...\n")
            [log0 ++ "--- Stage 1: Picture Generation ---\n" ++
            "Running SongFormer analysis + image generation...\n"] w.stage1Lines).1 ++
            "\nStage 1 complete.\n\n"] ++
            [(streamLines (log0 ++ "--- Stage 1: Picture Generation ---\n" ++
            "Running SongFormer analysis + image generation...\n")
            [log0 ++ "--- Stage 1: Picture Generation ---\n" ++
            "Running SongFormer analysis + image generation...\n"] w.stage1Lines).1 ++
            "\nStage 1 complete.\n\n" ++ "--- Stage 2: Video Generation ---\n" ++
            "Generating video clips and assembling final MV...\n"]) w.stage2Lines).1 =
            log0 ++ t :=
          ext_trans (streamLines_fst _ _ _) hlog5
        by_cases h4 : w.exn = some ExnPoint.duringStage2
        · rw [if_pos h4]
          exact hys4
        · rw [if_neg h4]
          by_cases h5 : w.stage2Exit ≠ 0
          · rw [if_pos h5]
            intro y hy
            rcases List.mem_append.mp hy with h | h
            · exact hs2mem y h
            · rw [List.mem_singleton.mp h]
              exact ext_append (ext_append (ext_append hs2fst _) _) _
          · rw [if_neg h5]
            by_cases h6 : w.exn = some ExnPoint.atCleanup
            · rw [if_pos h6]
              exact hs2mem
            · rw [if_neg h6]
              intro y hy
              rcases List.mem_append.mp hy with h | h
              · exact hs2mem y h
              · rw [List.mem_singleton.mp h]
                by_cases hfv : w.finalVideoExists = true
                · rw [if_pos hfv]
                  exact ext_append (ext_append (ext_append hs2fst _) _) _
                · rw [if_neg hfv]
                  exact ext_append hs2fst _

/-- Every value yielded by `generate_music_video` is one of the fixed
validation/warning lines, an extension of the required-keys error prefix, or
an extension of the pipeline-log header. -/
lemma genMV_yields_classified (automvDir : String) (audioFile : Option String)
    (musicName lipSync resolution : String) (env : EnvMap) (w : World) (fs0 : FS) :
    ∀ y ∈ (generate_music_video automvDir audioFile musicName lipSync resolution
        env w fs0).yields,
      y = errUpload ∨
      (∃ t, y = "Error: Required API keys not configured: " ++ t) ∨
      y = warnLipSync ∨ y = errExt ∨
      (∃ t, y = "=== AutoMV Pipeline ===\n" ++ t) := by
  have hwarn : ∀ y ∈ (if providerOf env = "byteplus" ∧ lipSync ≠ "None" then
      [warnLipSync] else []), y = warnLipSync := by
    intro y hy
    by_cases hp : providerOf env = "byteplus" ∧ lipSync ≠ "None"
    · rw [if_pos hp] at hy
      exact List.mem_singleton.mp hy
    · rw [if_neg hp] at hy
      exact absurd hy (List.not_mem_nil y)
  unfold generate_music_video
  simp only []
  by_cases h1 : audioFile.getD "" = ""
  · rw [if_pos h1]
    intro y hy
    exact Or.inl (List.mem_singleton.mp hy)
  · rw [if_neg h1, if_neg (sanitize_pyOr_ne_empty musicName)]
    by_cases h3 : ((API_KEYS.take 2).filter (fun kl => ¬ envTruthy env kl.1)).map
        (fun kl => kl.2) ≠ []
    · rw [if_pos h3]
      intro y hy
      right
      left
      rw [List.mem_singleton.mp hy]
      exact ext_append (ext_head _ _) _
    · rw [if_neg h3]
      by_cases h4 : ¬(asciiLower (splitextExt (audioFile.getD "")) = ".mp3" ∨
          asciiLower (splitextExt (audioFile.getD "")) = ".wav")
      · rw [if_pos h4]
        intro y hy
        rcases List.mem_append.mp hy with h | h
        · exact Or.inr (Or.inr (Or.inl (hwarn y h)))
        · exact Or.inr (Or.inr (Or.inr (Or.inl (List.mem_singleton.mp h))))
      · rw [if_neg h4]
        split
        · intro y hy
          rcases List.mem_append.mp hy with h | h
          · exact Or.inr (Or.inr (Or.inl (hwarn y h)))
          · right; right; right; right
            rw [List.mem_singleton.mp h]
            exact ext_append (ext_append (ext_append (ext_append (ext_head _ _) _) _) _) _
        · rename_i originalConfig hsome
          intro y hy
          rcases List.mem_append.mp hy with h | h
          · rcases List.mem_append.mp h with h2 | h2
            · exact Or.inr (Or.inr (Or.inl (hwarn y h2)))
            · right; right; right; right
              rw [List.mem_singleton.mp h2]
              exact ext_append (ext_append (ext_append (ext_append (ext_head _ _) _) _) _) _
          · right; right; right; right
            exact ext_trans (tryBody_yields_ext _ _ _ _ _ _ _ _ y h)
              (ext_append (ext_append (ext_append (ext_append (ext_head _ _) _) _) _) _)

/-- C10: the sanitizer replaces characters one for one and never deletes, so
it preserves length; consequently, since `generate_music_video` sanitizes
`music_name or "untitled"` (a non-empty string), the sanitized name is never
empty and the "valid music name" error line is never yielded by any run. -/
theorem sanitize_length_preserved_name_error_unreachable :
    (∀ name : String, (sanitize_music_name name).length = name.length) ∧
    (∀ (automvDir : String) (audioFile : Option String)
       (musicName lipSync resolution : String) (env : EnvMap) (w : World) (fs0 : FS),
      (generate_music_video automvDir audioFile musicName lipSync resolution env w
        fs0).yields.contains errValidName = false) := by
  refine ⟨sanitize_length, ?_⟩
  intro automvDir audioFile musicName lipSync resolution env w fs0
  rw [Bool.eq_false_iff]
  intro hcontains
  have hmem : errValidName ∈ (generate_music_video automvDir audioFile musicName
      lipSync resolution env w fs0).yields := by
    rwa [List.elem_iff] at hcontains
  rcases genMV_yields_classified automvDir audioFile musicName lipSync resolution
      env w fs0 errValidName hmem with h | ⟨t, ht⟩ | h | h | ⟨t, ht⟩
  · exact absurd h (by decide)
  · exact absurd ht (ne_append_of_not_isPrefixOf (by decide) t)
  · exact absurd h (by decide)
  · exact absurd h (by decide)
  · exact absurd ht (ne_append_of_not_isPrefixOf (by decide) t)

end AutoMV
